import Mathlib

/-!
Verification of the tool-invocation server (tool registry, doc-comment
parser, signature descriptor, and JSON-RPC dispatcher) against its
natural-language specification.  The definitions below are a shallow
embedding of `tool_registry.py` and `main.py`: JSON values are an
inductive type, Python dicts are insertion-ordered association lists,
Python exceptions are explicit `Except` values tagged with the raised
exception class, and the logger is an explicit list of log entries.
-/

/-- A JSON value, as produced by parsing a request body.  Objects keep
their fields in insertion order with unique keys, mirroring the dicts
that the server's JSON parser produces. -/
inductive JValue where
  | null
  | bool (b : Bool)
  | num (n : Int)
  | str (s : String)
  | arr (items : List JValue)
  | obj (fields : List (String × JValue))

/-- Look up a key in a JSON object's field list (Python dict lookup). -/
def jlookup (fields : List (String × JValue)) (k : String) : Option JValue :=
  (fields.find? (fun f => f.1 = k)).map (fun f => f.2)

/-- Python single-character membership test, written over the character
list of the string so that proofs can reason about it directly. -/
def strContainsChar (s : String) (c : Char) : Bool :=
  s.data.contains c

/-- Characters stripped by Python's str.strip (the whitespace occurring
in the repository's docstrings). -/
def pyWhitespace (c : Char) : Bool :=
  c == ' ' || c == '\t' || c == '\n' || c == '\r' || c == '\x0b' || c == '\x0c'

/-- Python str.strip: remove leading and trailing whitespace. -/
def pyStrip (s : String) : String :=
  String.mk (((s.data.dropWhile pyWhitespace).reverse.dropWhile pyWhitespace).reverse)

/-- Helper for splitting on a character: accumulates the current piece
in reverse while walking the remaining characters. -/
def splitOnCharAux (c : Char) : List Char → List Char → List String
  | cur, [] => [String.mk cur.reverse]
  | cur, x :: xs =>
      if x = c then String.mk cur.reverse :: splitOnCharAux c [] xs
      else splitOnCharAux c (x :: cur) xs

/-- Python str.split with a one-character separator: splits at every
occurrence, keeping empty pieces. -/
def splitOnChar (c : Char) (s : String) : List String :=
  splitOnCharAux c [] s.data

/-- Python sep.join(pieces). -/
def joinSep (sep : String) : List String → String
  | [] => ""
  | [x] => x
  | x :: xs => x ++ sep ++ joinSep sep xs

/-- Python str.startswith with a tuple of candidates. -/
def startsWithAny (s : String) (ps : List String) : Bool :=
  ps.any (fun p => p.data.isPrefixOf s.data)

/-- Split a character list at the first occurrence of a character:
none when absent, otherwise the pieces before and after it. -/
def splitFirstAux (c : Char) : List Char → Option (List Char × List Char)
  | [] => none
  | x :: xs =>
      if x = c then some ([], xs)
      else (splitFirstAux c xs).map (fun p => (x :: p.1, p.2))

/-- Python s.split(sep, 1) for a one-character separator: none models
the one-element result when the separator is absent. -/
def splitFirst (s : String) (c : Char) : Option (String × String) :=
  (splitFirstAux c s.data).map (fun p => (String.mk p.1, String.mk p.2))

/-- Python dict assignment d[k] = v: update in place when the key is
already present, else append at the end (insertion order). -/
def dictSet : List (String × String) → String → String → List (String × String)
  | [], k, v => [(k, v)]
  | (k0, v0) :: rest, k, v =>
      if k0 = k then (k0, v) :: rest
      else (k0, v0) :: dictSet rest k v

/-- Python d.get(k, default). -/
def dictGetD (d : List (String × String)) (k : String) (dflt : String) : String :=
  match d.find? (fun e => e.1 = k) with
  | some e => e.2
  | none => dflt

/-! ## Doc-comment parser (ToolRegistry._parse_docstring) -/

/-- The loop state of _parse_docstring: accumulated description lines,
the parameter-description dict, whether the parameters section has been
entered, and the most recently recorded parameter. -/
structure ParseState where
  main_desc_lines : List String
  params_desc : List (String × String)
  in_params_section : Bool
  current_param : Option String

/-- The parameter-section headers recognised by _parse_docstring. -/
def isParamsHeader (s : String) : Bool :=
  startsWithAny s ["参数：", "参数:", "Params：", "Params:"]

/-- The section headers that terminate parameter scanning. -/
def isDocTerminator (s : String) : Bool :=
  startsWithAny s ["返回：", "返回:", "示例：", "示例:", "支持的操作符：", "注意：", "Note："]

/-- Separator choice for a parameter line: the full-width colon when
present, else the ASCII colon, else none (source lines 46-49). -/
def chooseSep (s : String) : Option Char :=
  if strContainsChar s '：' then some '：'
  else if strContainsChar s ':' then some ':'
  else none

/-- Record a split parameter line: trim both sides, then record
name ↦ description (empty description allowed); a line whose name
trims to empty is skipped (source lines 61-72). -/
def recordParam (st : ParseState) (parts : String × String) : ParseState :=
  let param_name := pyStrip parts.1
  let desc := pyStrip parts.2
  if param_name ≠ "" ∧ desc ≠ "" then
    { st with params_desc := dictSet st.params_desc param_name desc,
              current_param := some param_name }
  else if param_name ≠ "" then
    { st with params_desc := dictSet st.params_desc param_name "",
              current_param := some param_name }
  else st

/-- Handle one non-blank, non-header, non-terminator line in
parameter-scanning mode: pick the separator, split at its first
occurrence and record; with no separator, append the line to the most
recent parameter's description if one exists (source lines 45-72). -/
def paramLineStep (st : ParseState) (stripped : String) : ParseState :=
  match chooseSep stripped with
  | some sep =>
      match splitFirst stripped sep with
      | some parts => recordParam st parts
      | none => st
  | none =>
      match st.current_param with
      | some cp =>
          if cp ≠ "" ∧ stripped ≠ "" then
            { st with params_desc :=
                dictSet st.params_desc cp (dictGetD st.params_desc cp "" ++ " " ++ stripped) }
          else st
      | none => st

/-- The line loop of _parse_docstring (source lines 28-72).  A
terminator header in parameter mode stops the whole loop. -/
def processDocLines : ParseState → List String → ParseState
  | st, [] => st
  | st, line :: rest =>
      let stripped := pyStrip line
      if isParamsHeader stripped then
        processDocLines { st with in_params_section := true } rest
      else if st.in_params_section = false then
        if stripped ≠ "" then
          processDocLines { st with main_desc_lines := st.main_desc_lines ++ [stripped] } rest
        else
          processDocLines st rest
      else if isDocTerminator stripped then
        st
      else if stripped = "" then
        processDocLines st rest
      else
        processDocLines (paramLineStep st stripped) rest

/-- The result of doc-comment parsing: a main description plus the
parameter-description mapping. -/
structure DocInfo where
  description : String
  params_desc : List (String × String)
deriving DecidableEq

/-- ToolRegistry._parse_docstring.  The argument is optional because a
callable may carry no doc comment (Python None); None and the empty
string both take the early-return branch (source line 17). -/
def parse_docstring (docstring : Option String) : DocInfo :=
  match docstring with
  | none => { description := "", params_desc := [] }
  | some d =>
      if d = "" then { description := "", params_desc := [] }
      else
        let lines := splitOnChar '\n' (pyStrip d)
        let st := processDocLines ⟨[], [], false, none⟩ lines
        { description := joinSep "\n\n" st.main_desc_lines,
          params_desc := st.params_desc }

/-! ## Tool registry (tool_registry.py) -/

/-- The exception class of a raised Python failure, as far as the
server's except clauses distinguish them. -/
inductive ExcType where
  | valueError
  | typeError
  | other
deriving DecidableEq

/-- A raised Python exception: its class and its str() text. -/
structure PyExc where
  ty : ExcType
  msg : String

/-- A formal parameter of a tool's callable: its name, the __name__ of
its static type annotation when one is present, and whether it has a
default value (i.e. is optional). -/
structure ParamSpec where
  name : String
  annotation_name : Option String
  hasDefault : Bool

/-- A registered tool: its name, doc comment, declared parameters in
declaration order, and its body, which receives the keyword arguments
and either returns a value or raises. -/
structure ToolDef where
  name : String
  docstring : Option String
  params : List ParamSpec
  body : List (String × JValue) → Except PyExc JValue

/-- The registry's tools dict, as an insertion-ordered list. -/
def lookupTool (reg : List ToolDef) (name : String) : Option ToolDef :=
  reg.find? (fun t => t.name = name)

/-- Python keyword-argument binding of a kwargs dict against a
signature: a TypeError message on an unexpected keyword or a missing
required argument, none when binding succeeds. -/
def bindArgs (fname : String) (ps : List ParamSpec) (args : List (String × JValue)) : Option String :=
  match args.find? (fun a => !(ps.any (fun p => p.name = a.1))) with
  | some a => some (fname ++ "() got an unexpected keyword argument " ++ a.1)
  | none =>
      let missing := ps.filter (fun p => !p.hasDefault && !(args.any (fun a => a.1 = p.name)))
      if missing.isEmpty then none
      else some (fname ++ "() missing " ++ toString missing.length
                  ++ " required positional argument: "
                  ++ joinSep ", " (missing.map (fun p => p.name)))

/-- ToolRegistry.call_tool: ValueError when the name is unknown, else
call the tool with the arguments bound by name; a binding mismatch is
the TypeError raised at the call site. -/
def ToolRegistry.call_tool (reg : List ToolDef) (name : String)
    (kwargs : List (String × JValue)) : Except PyExc JValue :=
  match lookupTool reg name with
  | none => Except.error ⟨ExcType.valueError, "工具 " ++ name ++ " 不存在"⟩
  | some t =>
      match bindArgs t.name t.params kwargs with
      | some m => Except.error ⟨ExcType.typeError, m⟩
      | none => t.body kwargs

/-- A parameter descriptor in a tool's listing entry. -/
structure ParamDescriptor where
  name : String
  type : String
  description : String
deriving DecidableEq

/-- One tool's listing entry. -/
structure ToolListing where
  name : String
  description : String
  parameters : List ParamDescriptor
deriving DecidableEq

/-- ToolRegistry.list_tools (source lines 79-103): for every registered
tool, parse its doc comment and enumerate its declared parameters; the
type tag is the annotation's name when present, else "str". -/
def list_tools (reg : List ToolDef) : List ToolListing :=
  reg.map (fun t =>
    let doc_info := parse_docstring t.docstring
    { name := t.name,
      description := doc_info.description,
      parameters := t.params.map (fun p =>
        { name := p.name,
          type := match p.annotation_name with
                  | some a => a
                  | none => "str",
          description := dictGetD doc_info.params_desc p.name "" }) })

/-! ## JSON-RPC dispatcher (main.py) -/

/-- A JSON-RPC request id: a string or an integer (absent ids are
modelled with Option at the use sites). -/
inductive RpcId where
  | str (s : String)
  | num (n : Int)
deriving DecidableEq

/-- Python str() of an optional id, as interpolated into log lines. -/
def idToString : Option RpcId → String
  | none => "None"
  | some (RpcId.str s) => s
  | some (RpcId.num n) => toString n

/-- A validated JSONRPCRequest model instance. -/
structure RpcRequest where
  jsonrpc : String
  id : Option RpcId
  method : String
  params : Option (List (String × JValue))

/-- A JSONRPCError model instance. -/
structure JSONRPCError where
  code : Int
  message : String
  data : Option JValue

/-- A JSONRPCResponse model instance (the jsonrpc field is always
"2.0" and is omitted). -/
structure JSONRPCResponse where
  id : Option RpcId
  result : Option JValue
  error : Option JSONRPCError

/-- A server-side log entry, tagged with the logger level used. -/
inductive LogEntry where
  | info (msg : String)
  | error (msg : String)
  | critical (msg : String)

/-- Validation of the jsonrpc field: a string, defaulting to "2.0"
when absent; any non-string value fails model validation. -/
def parseJsonrpcField : Option JValue → Except String String
  | none => Except.ok "2.0"
  | some (JValue.str s) => Except.ok s
  | some _ => Except.error "validation error for JSONRPCRequest: jsonrpc"

/-- Validation of the id field: a string, an integer, null, or absent. -/
def parseIdField : Option JValue → Except String (Option RpcId)
  | none => Except.ok none
  | some JValue.null => Except.ok none
  | some (JValue.str s) => Except.ok (some (RpcId.str s))
  | some (JValue.num n) => Except.ok (some (RpcId.num n))
  | some _ => Except.error "validation error for JSONRPCRequest: id"

/-- Validation of the required method field: a string. -/
def parseMethodField : Option JValue → Except String String
  | some (JValue.str s) => Except.ok s
  | some _ => Except.error "validation error for JSONRPCRequest: method"
  | none => Except.error "validation error for JSONRPCRequest: method missing"

/-- Validation of the params field: an object, null, or absent. -/
def parseParamsField : Option JValue → Except String (Option (List (String × JValue)))
  | none => Except.ok none
  | some JValue.null => Except.ok none
  | some (JValue.obj fs) => Except.ok (some fs)
  | some _ => Except.error "validation error for JSONRPCRequest: params"

/-- JSONRPCRequest(**req): splatting a non-object raises a TypeError
and a field of the wrong shape raises a ValidationError; both are
reported through the message string. -/
def parseRpcRequest : JValue → Except String RpcRequest
  | JValue.obj fields => do
      let jr ← parseJsonrpcField (jlookup fields "jsonrpc")
      let rid ← parseIdField (jlookup fields "id")
      let m ← parseMethodField (jlookup fields "method")
      let ps ← parseParamsField (jlookup fields "params")
      Except.ok ⟨jr, rid, m, ps⟩
  | _ => Except.error "argument after ** must be a mapping"

/-- Dispatch of one validated request (source lines 100-149): version
check, tool lookup, invocation, and mapping of each outcome to a
response, together with the log entries written along the way. -/
def processParsed (reg : List ToolDef) (req : RpcRequest) : JSONRPCResponse × List LogEntry :=
  if req.jsonrpc ≠ "2.0" then
    ({ id := none, result := none,
       error := some { code := -32600, message := "无效的请求格式",
                       data := some (JValue.str "仅支持JSON-RPC 2.0协议") } },
     [LogEntry.error ("请求解析失败: " ++ "仅支持JSON-RPC 2.0协议")])
  else
    let params := req.params.getD []
    let recvLog := LogEntry.info ("接收MCP调用请求: id=" ++ idToString req.id
                                   ++ ", method=" ++ req.method)
    match lookupTool reg req.method with
    | none =>
        ({ id := req.id, result := none,
           error := some { code := -32601,
                           message := "工具 " ++ req.method ++ " 不存在",
                           data := some (JValue.obj
                             [("available_tools",
                               JValue.arr (reg.map (fun t => JValue.str t.name)))]) } },
         [recvLog])
    | some t =>
        match ToolRegistry.call_tool reg req.method params with
        | Except.ok v =>
            ({ id := req.id, result := some (JValue.obj [("value", v)]), error := none },
             [recvLog,
              LogEntry.info ("MCP调用成功: id=" ++ idToString req.id
                              ++ ", method=" ++ req.method)])
        | Except.error e =>
            match e.ty with
            | ExcType.typeError =>
                ({ id := req.id, result := none,
                   error := some { code := -32602, message := "参数错误",
                                   data := some (JValue.obj
                                     [("error", JValue.str e.msg),
                                      ("required_params",
                                       JValue.arr (t.params.map (fun p => JValue.str p.name))),
                                      ("received_params",
                                       JValue.arr (params.map (fun a => JValue.str a.1)))]) } },
                 [recvLog])
            | _ =>
                ({ id := req.id, result := none,
                   error := some { code := -32603, message := "工具执行失败",
                                   data := some (JValue.obj
                                     [("error_code", JValue.str "TOOL_EXECUTE_FAILED")]) } },
                 [recvLog,
                  LogEntry.error ("工具执行失败: id=" ++ idToString req.id
                                   ++ ", method=" ++ req.method ++ ", error=" ++ e.msg)])

/-- Processing of one batch item: model validation followed by
dispatch; a validation failure becomes the per-item -32600 response
with the failure text as data (source lines 97-159). -/
def processItem (reg : List ToolDef) (item : JValue) : JSONRPCResponse × List LogEntry :=
  match parseRpcRequest item with
  | Except.error e =>
      ({ id := none, result := none,
         error := some { code := -32600, message := "无效的请求格式",
                         data := some (JValue.str e) } },
       [LogEntry.error ("请求解析失败: " ++ e)])
  | Except.ok req => processParsed reg req

/-- The per-item loop of json_rpc_handler: every item appends exactly
one response to the accumulator. -/
def processLoop (reg : List ToolDef) : List JValue → List JSONRPCResponse → List LogEntry →
    List JSONRPCResponse × List LogEntry
  | [], acc, logs => (acc, logs)
  | item :: rest, acc, logs =>
      processLoop reg rest (acc ++ [(processItem reg item).1]) (logs ++ (processItem reg item).2)

/-- The raw HTTP body of a POST to the RPC endpoint: empty, non-empty
but not valid JSON (with the decoder's failure text), or parsed JSON. -/
inductive RawBody where
  | empty
  | invalid (msg : String)
  | json (v : JValue)

/-- The handler's HTTP payload: a single response object or an array. -/
inductive RpcOutput where
  | single (r : JSONRPCResponse)
  | batch (rs : List JSONRPCResponse)

/-- The response built by the handler's outermost exception handler
(source lines 164-170). -/
def internalErrorResponse : JSONRPCResponse :=
  { id := none, result := none,
    error := some { code := -32603, message := "服务器内部错误", data := none } }

/-- json_rpc_handler (source lines 79-170).  An empty body raises
ValueError and a non-JSON body raises JSONDecodeError; both are raised
in the outer try, so both reach the outermost handler.  For parsed
JSON, an array is processed as a batch and anything else as a batch of
one whose single response is returned unwrapped (the headD default
models the outer handler catching the impossible IndexError). -/
def json_rpc_handler (reg : List ToolDef) (body : RawBody) : RpcOutput × List LogEntry :=
  match body with
  | RawBody.empty =>
      (RpcOutput.single internalErrorResponse,
       [LogEntry.critical ("RPC接口全局异常: " ++ "空请求体")])
  | RawBody.invalid msg =>
      (RpcOutput.single internalErrorResponse,
       [LogEntry.critical ("RPC接口全局异常: " ++ msg)])
  | RawBody.json (JValue.arr items) =>
      let out := processLoop reg items [] []
      (RpcOutput.batch out.1, out.2)
  | RawBody.json v =>
      let out := processLoop reg [v] [] []
      (RpcOutput.single (out.1.headD internalErrorResponse), out.2)

/-! ## Legacy per-tool endpoint (main.py call_tool) -/

/-- The observable outcome of POST /mcp/v1/tools/tool_name: a JSON
body on success, or an HTTPException status and detail string. -/
inductive LegacyResult where
  | ok (body : JValue)
  | httpError (status : Nat) (detail : String)

/-- The legacy endpoint call_tool (source lines 63-72): ValueError maps
to HTTP 404 and every other failure to HTTP 400 with its text, after a
server-side error log. -/
def call_tool (reg : List ToolDef) (tool_name : String)
    (parameters : List (String × JValue)) : LegacyResult × List LogEntry :=
  match ToolRegistry.call_tool reg tool_name parameters with
  | Except.ok v => (LegacyResult.ok (JValue.obj [("result", v)]), [])
  | Except.error e =>
      match e.ty with
      | ExcType.valueError => (LegacyResult.httpError 404 e.msg, [])
      | _ => (LegacyResult.httpError 400 e.msg,
              [LogEntry.error ("工具调用失败: " ++ e.msg)])

/-! ## The weather tool (tools/weather.py) -/

/-- The body of the weather tool: date defaults to 2025-12-30 when the
bound argument is None (i.e. not supplied), then a fixed table of three
cities; unknown cities format the 未知城市 line. -/
def weatherBody (args : List (String × JValue)) : Except PyExc JValue :=
  let location := (jlookup args "location").getD JValue.null
  let date0 := (jlookup args "date").getD JValue.null
  let date := match date0 with
    | JValue.null => JValue.str "2025-12-30"
    | d => d
  let fmt := fun (v : JValue) => match v with
    | JValue.str s => s
    | JValue.num n => toString n
    | JValue.null => "None"
    | JValue.bool b => if b then "True" else "False"
    | _ => ""
  match location with
  | JValue.str "北京" =>
      Except.ok (JValue.str (fmt date ++ " " ++ fmt location ++ " 晴 25°C"))
  | JValue.str "上海" =>
      Except.ok (JValue.str (fmt date ++ " " ++ fmt location ++ " 多云 20°C"))
  | JValue.str "纽约" =>
      Except.ok (JValue.str (fmt date ++ " " ++ fmt location ++ " 雨 10°C"))
  | _ =>
      Except.ok (JValue.str (fmt date ++ " " ++ fmt location ++ " 未知城市"))

/-- The registered weather tool: weather(location: str, date: str = None)
with its doc comment. -/
def weatherTool : ToolDef :=
  { name := "weather",
    docstring := some ("\n    获取指定城市的天气信息。\n\n    用途：\n      用于查询全球城市的天气情况，支持指定日期查询历史天气。\n      可回答自然语言问题，如“北京今天天气怎么样”、“上海明天天气”、“查一下昨天的天气”。\n\n    参数：\n      location: 城市名称，例如 \"北京\"、\"Shanghai\"、\"纽约\"\n      date: 查询日期，格式为 \"YYYY-MM-DD\"，默认是当天。\n            也可以使用自然语言，例如 \"今天\"、\"明天\"、\"昨天\"\n\n    返回：\n      str - 格式化的天气信息字符串，例如 \"2025-12-30 北京 晴 25°C\"\n\n    示例：\n      weather(location=\"北京\") → \"2025-12-30 北京 晴 25°C\"\n      weather(location=\"上海\", date=\"2025-12-31\") → \"2025-12-31 上海 多云 20°C\"\n      weather(location=\"纽约\", date=\"昨天\") → \"2025-12-29 纽约 雨 10°C\"\n\n    注意：\n      如果城市不存在，返回 \"未知城市\"\n    "),
    params := [{ name := "location", annotation_name := some "str", hasDefault := false },
               { name := "date", annotation_name := some "str", hasDefault := true }],
    body := weatherBody }

/-! ## Auxiliary observation: the strings occurring in a JSON value -/

mutual

/-- All strings occurring anywhere in a JSON value: string leaves and
object keys.  Used to state that redacted error data carries no text
of the raised exception. -/
def jvalStrings : JValue → List String
  | JValue.null => []
  | JValue.bool _ => []
  | JValue.num _ => []
  | JValue.str s => [s]
  | JValue.arr items => jvalStringsList items
  | JValue.obj fields => jvalStringsFields fields

/-- Strings occurring in a list of JSON values. -/
def jvalStringsList : List JValue → List String
  | [] => []
  | v :: vs => jvalStrings v ++ jvalStringsList vs

/-- Strings occurring in the field list of a JSON object. -/
def jvalStringsFields : List (String × JValue) → List String
  | [] => []
  | f :: fs => f.1 :: (jvalStrings f.2 ++ jvalStringsFields fs)

end

/-! ## Concrete inputs used to instantiate and refute the claims -/

/-- A tool with a single parameter that carries no type annotation. -/
def c3Tool : ToolDef :=
  { name := "c3tool", docstring := none,
    params := [{ name := "x", annotation_name := none, hasDefault := false }],
    body := fun _ => Except.ok JValue.null }

/-- A tool whose body raises a non-TypeError failure carrying detail
that must not leave the process. -/
def c4FailTool : ToolDef :=
  { name := "failtool", docstring := none, params := [],
    body := fun _ => Except.error ⟨ExcType.other, "secret-db-password"⟩ }

/-- A request invoking the failing tool. -/
def c4Req : RpcRequest :=
  { jsonrpc := "2.0", id := some (RpcId.str "w4"), method := "failtool", params := none }

/-- A tool whose body itself raises a TypeError with sensitive text. -/
def c4LeakTool : ToolDef :=
  { name := "leaktool", docstring := none, params := [],
    body := fun _ => Except.error ⟨ExcType.typeError, "secret detail 42"⟩ }

/-- A request invoking the TypeError-raising tool. -/
def c4LeakReq : RpcRequest :=
  { jsonrpc := "2.0", id := some (RpcId.num 7), method := "leaktool", params := some [] }

/-- A tool requiring the single parameter city. -/
def c6CityTool : ToolDef :=
  { name := "check_city", docstring := none,
    params := [{ name := "city", annotation_name := some "str", hasDefault := false }],
    body := fun _ => Except.ok JValue.null }

/-- A request invoking the city tool with empty params. -/
def c6Req : RpcRequest :=
  { jsonrpc := "2.0", id := some (RpcId.num 1), method := "check_city", params := some [] }

/-- A registered tool whose body raises ValueError. -/
def c7ValTool : ToolDef :=
  { name := "vtool", docstring := none, params := [],
    body := fun _ => Except.error ⟨ExcType.valueError, "v-detail"⟩ }

/-- A registered tool whose body succeeds. -/
def c7OkTool : ToolDef :=
  { name := "oktool", docstring := none, params := [],
    body := fun _ => Except.ok (JValue.str "hi") }

/-- A registered tool whose body raises a non-ValueError failure. -/
def c7OtherTool : ToolDef :=
  { name := "otool", docstring := none, params := [],
    body := fun _ => Except.error ⟨ExcType.other, "o-detail"⟩ }



/-! ## Helper lemmas -/

/-- A key of the updated dict is the written key or an existing key. -/
theorem keys_dictSet_subset (d : List (String × String)) (k v k' : String)
    (h : k' ∈ (dictSet d k v).map Prod.fst) : k' = k ∨ k' ∈ d.map Prod.fst := by
  induction d with
  | nil =>
      rw [show dictSet [] k v = [(k, v)] from rfl] at h
      rw [List.map_singleton, List.mem_singleton] at h
      exact Or.inl h
  | cons e rest ih =>
      obtain ⟨k0, v0⟩ := e
      by_cases hk : k0 = k
      · rw [show dictSet ((k0, v0) :: rest) k v = (k0, v) :: rest by simp [dictSet, hk]] at h
        rw [List.map_cons, List.mem_cons] at h
        rcases h with h | h
        · exact Or.inl (h.trans hk)
        · exact Or.inr (by rw [List.map_cons, List.mem_cons]; exact Or.inr h)
      · rw [show dictSet ((k0, v0) :: rest) k v = (k0, v0) :: dictSet rest k v by
              simp [dictSet, hk]] at h
        rw [List.map_cons, List.mem_cons] at h
        rcases h with h | h
        · exact Or.inr (by rw [List.map_cons, List.mem_cons]; exact Or.inl h)
        · rcases ih h with h1 | h1
          · exact Or.inl h1
          · exact Or.inr (by rw [List.map_cons, List.mem_cons]; exact Or.inr h1)

/-- Dict assignment preserves distinctness of the keys. -/
theorem nodup_keys_dictSet (d : List (String × String)) (k v : String)
    (h : (d.map Prod.fst).Nodup) : ((dictSet d k v).map Prod.fst).Nodup := by
  induction d with
  | nil => simp [dictSet]
  | cons e rest ih =>
      obtain ⟨k0, v0⟩ := e
      rw [List.map_cons, List.nodup_cons] at h
      by_cases hk : k0 = k
      · rw [show dictSet ((k0, v0) :: rest) k v = (k0, v) :: rest by simp [dictSet, hk],
            List.map_cons, List.nodup_cons]
        exact h
      · rw [show dictSet ((k0, v0) :: rest) k v = (k0, v0) :: dictSet rest k v by
              simp [dictSet, hk],
            List.map_cons, List.nodup_cons]
        refine ⟨fun hmem => ?_, ih h.2⟩
        rcases keys_dictSet_subset rest k v k0 hmem with h1 | h1
        · exact hk h1
        · exact h.1 h1

/-- One parameter-mode line keeps the parameter keys distinct. -/
theorem nodup_paramLineStep (st : ParseState) (s : String)
    (h : (st.params_desc.map Prod.fst).Nodup) :
    ((paramLineStep st s).params_desc.map Prod.fst).Nodup := by
  unfold paramLineStep
  split
  · split
    · unfold recordParam
      dsimp only
      split
      · exact nodup_keys_dictSet _ _ _ h
      · split
        · exact nodup_keys_dictSet _ _ _ h
        · exact h
    · exact h
  · split
    · split
      · exact nodup_keys_dictSet _ _ _ h
      · exact h
    · exact h

/-- The whole docstring loop keeps the parameter keys distinct. -/
theorem nodup_processDocLines (lines : List String) (st : ParseState)
    (h : (st.params_desc.map Prod.fst).Nodup) :
    ((processDocLines st lines).params_desc.map Prod.fst).Nodup := by
  induction lines generalizing st with
  | nil => simpa [processDocLines] using h
  | cons line rest ih =>
      unfold processDocLines
      dsimp only
      split
      · exact ih _ h
      · split
        · split
          · exact ih _ h
          · exact ih _ h
        · split
          · exact h
          · split
            · exact ih _ h
            · exact ih _ (nodup_paramLineStep _ _ h)

/-- The per-item loop appends, in order, exactly one response per item. -/
theorem processLoop_fst (reg : List ToolDef) (items : List JValue)
    (acc : List JSONRPCResponse) (logs : List LogEntry) :
    (processLoop reg items acc logs).1
      = acc ++ items.map (fun it => (processItem reg it).1) := by
  induction items generalizing acc logs with
  | nil => simp [processLoop]
  | cons x xs ih => simp [processLoop, ih]

/-- Splitting at a character finds its first occurrence: everything
before the first occurrence (which may contain any other characters)
is the left piece. -/
theorem splitFirstAux_append (c : Char) (l1 l2 : List Char) (h : c ∉ l1) :
    splitFirstAux c (l1 ++ c :: l2) = some (l1, l2) := by
  induction l1 with
  | nil => simp [splitFirstAux]
  | cons x xs ih =>
      rw [List.mem_cons, not_or] at h
      have hx : ¬x = c := fun e => h.1 e.symm
      simp [splitFirstAux, hx, ih h.2]

/-! ## Claim theorems -/

/-- Claim C1 (code behavior at the failing input): for every POST to
the RPC endpoint whose raw body is non-empty but not valid JSON, the
handler returns a single response with id null — but with error code
-32603 and message 服务器内部错误, not -32700: json.loads runs in the
outer try, so the JSONDecodeError reaches the outermost handler and
the dedicated -32700 handler inside the per-item loop is dead code. -/
theorem c1_invalid_json_internal_error (reg : List ToolDef) (msg : String) :
    json_rpc_handler reg (RawBody.invalid msg)
      = (RpcOutput.single internalErrorResponse,
         [LogEntry.critical ("RPC接口全局异常: " ++ msg)])
    ∧ internalErrorResponse.error
        = some { code := -32603, message := "服务器内部错误", data := none }
    ∧ ((-32603 : Int) ≠ -32700) :=
  ⟨rfl, rfl, by decide⟩

/-- Claim C2, counterexample to the stated error class: an empty
request body yields error code -32603, which is not in the -32600
invalid-request class. -/
theorem c2_counterexample :
    (match (json_rpc_handler [] RawBody.empty).1 with
      | RpcOutput.single r => r.error.map (fun e => e.code)
      | RpcOutput.batch _ => none)
      = some (-32603)
    ∧ ((-32603 : Int) ≠ -32600) :=
  ⟨rfl, by decide⟩

/-- Claim C2 as amended: for every POST whose raw body is empty, the
handler returns a single top-level response (never an array, never a
per-item response) with id null and error code -32603: the ValueError
raised for the empty body is caught only by the outermost handler. -/
theorem c2_empty_body_single_response (reg : List ToolDef) :
    json_rpc_handler reg RawBody.empty
      = (RpcOutput.single internalErrorResponse,
         [LogEntry.critical ("RPC接口全局异常: " ++ "空请求体")])
    ∧ internalErrorResponse.error
        = some { code := -32603, message := "服务器内部错误", data := none } :=
  ⟨rfl, rfl⟩

/-- Claim C8: a JSON-array body of K requests produces exactly the list
of the K per-item responses in input order (the response for item i is
at position i, whatever each item's outcome), and a single-object body
produces that object's single response with no array wrapper. -/
theorem c8_batch_order_and_shape (reg : List ToolDef) (items : List JValue)
    (fields : List (String × JValue)) :
    (json_rpc_handler reg (RawBody.json (JValue.arr items))).1
        = RpcOutput.batch (items.map (fun it => (processItem reg it).1))
    ∧ (items.map (fun it => (processItem reg it).1)).length = items.length
    ∧ (json_rpc_handler reg (RawBody.json (JValue.obj fields))).1
        = RpcOutput.single (processItem reg (JValue.obj fields)).1 := by
  refine ⟨?_, by simp, ?_⟩
  · simp [json_rpc_handler, processLoop_fst]
  · simp [json_rpc_handler, processLoop_fst]

/-- Claim C9: doc-comment parsing is total — the embedding is a total
function on every optional string — and always yields a well-formed
DocInfo: the parameter map has pairwise-distinct keys, and the
degenerate inputs (absent and empty doc comment) yield the empty
DocInfo. -/
theorem c9_parse_docstring_total (docstring : Option String) :
    ((parse_docstring docstring).params_desc.map Prod.fst).Nodup
    ∧ parse_docstring none = { description := "", params_desc := [] }
    ∧ parse_docstring (some "") = { description := "", params_desc := [] } := by
  refine ⟨?_, rfl, by simp [parse_docstring]⟩
  cases docstring with
  | none => simp [parse_docstring]
  | some d =>
      by_cases hd : d = ""
      · simp [parse_docstring, hd]
      · simp only [parse_docstring, hd, if_false]
        exact nodup_processDocLines _ _ (by simp)

/-- Claim C10: in parameter-scanning mode, a line containing the
full-width colon is always split at its first full-width colon — the
ASCII colon is ignored even when it occurs earlier in the line (the
left piece l1 may contain ASCII colons) — and the ASCII colon is used
as separator only for lines containing no full-width colon. -/
theorem c10_fullwidth_colon_priority :
    (∀ (st : ParseState) (s : String), strContainsChar s '：' = true →
        paramLineStep st s
          = match splitFirst s '：' with
            | some parts => recordParam st parts
            | none => st)
    ∧ (∀ (st : ParseState) (s : String), strContainsChar s '：' = false →
        strContainsChar s ':' = true →
        paramLineStep st s
          = match splitFirst s ':' with
            | some parts => recordParam st parts
            | none => st)
    ∧ (∀ (l1 l2 : List Char), '：' ∉ l1 →
        splitFirst (String.mk (l1 ++ '：' :: l2)) '：'
          = some (String.mk l1, String.mk l2)) := by
  refine ⟨?_, ?_, ?_⟩
  · intro st s h
    simp [paramLineStep, chooseSep, h]
  · intro st s h1 h2
    simp [paramLineStep, chooseSep, h1, h2]
  · intro l1 l2 h
    show (splitFirstAux '：' (String.mk (l1 ++ '：' :: l2)).data).map _ = _
    rw [show (String.mk (l1 ++ '：' :: l2)).data = l1 ++ '：' :: l2 from rfl,
        splitFirstAux_append _ _ _ h]
    rfl

/-- Witness for C10: the line a:b：c has an ASCII colon before the
full-width colon, yet is split at the full-width colon, recording the
parameter a:b with description c. -/
theorem c10_witness :
    paramLineStep ⟨[], [], true, none⟩ "a:b：c"
      = (match splitFirst "a:b：c" '：' with
         | some parts => recordParam (⟨[], [], true, none⟩ : ParseState) parts
         | none => ⟨[], [], true, none⟩)
    ∧ (paramLineStep ⟨[], [], true, none⟩ "a:b：c").params_desc = [("a:b", "c")]
    ∧ chooseSep ":x" = some ':' := by
  refine ⟨c10_fullwidth_colon_priority.1 _ _ (by decide), by decide, by decide⟩

/-- Claim C6: when a request names a registered tool and the argument
binding fails, the response carries error code -32602 whose data holds
the raw mismatch detail, the tool's full declared parameter list (which
includes every required parameter name), and exactly the names of the
parameters actually supplied. -/
theorem c6_argument_mismatch (reg : List ToolDef) (req : RpcRequest) (t : ToolDef)
    (msg : String)
    (h1 : req.jsonrpc = "2.0")
    (h2 : lookupTool reg req.method = some t)
    (h3 : bindArgs t.name t.params (req.params.getD []) = some msg) :
    (processParsed reg req).1
      = { id := req.id, result := none,
          error := some { code := -32602, message := "参数错误",
                          data := some (JValue.obj
                            [("error", JValue.str msg),
                             ("required_params",
                              JValue.arr (t.params.map (fun p => JValue.str p.name))),
                             ("received_params",
                              JValue.arr ((req.params.getD []).map (fun a => JValue.str a.1)))]) } }
    ∧ (∀ p ∈ t.params, p.hasDefault = false →
        JValue.str p.name ∈ t.params.map (fun q => JValue.str q.name)) := by
  constructor
  · simp [processParsed, h1, ToolRegistry.call_tool, h2, h3]
  · intro p hp _
    exact List.mem_map_of_mem _ hp

/-- Witness for C6: the tool check_city requires the single parameter
city; invoking it with empty params yields -32602 with required_params
equal to city alone and received_params equal to the empty list. -/
theorem c6_witness :
    (processParsed [c6CityTool] c6Req).1
      = { id := some (RpcId.num 1), result := none,
          error := some { code := -32602, message := "参数错误",
                          data := some (JValue.obj
                            [("error",
                              JValue.str "check_city() missing 1 required positional argument: city"),
                             ("required_params", JValue.arr [JValue.str "city"]),
                             ("received_params", JValue.arr [])]) } } := by
  have h := c6_argument_mismatch [c6CityTool] c6Req c6CityTool
      "check_city() missing 1 required positional argument: city" rfl rfl rfl
  exact h.1

/-- Claim C4, counterexample to the stated universality: a registered
tool whose body raises a TypeError is caught by the dispatcher's
TypeError handler, so the response has code -32602 (not -32603) and
its data carries the raised message text verbatim. -/
theorem c4_counterexample :
    (processParsed [c4LeakTool] c4LeakReq).1.error
      = some { code := -32602, message := "参数错误",
               data := some (JValue.obj
                 [("error", JValue.str "secret detail 42"),
                  ("required_params", JValue.arr []),
                  ("received_params", JValue.arr [])]) }
    ∧ ((-32602 : Int) ≠ -32603)
    ∧ "secret detail 42" ∈ jvalStrings (JValue.obj
        [("error", JValue.str "secret detail 42"),
         ("required_params", JValue.arr []),
         ("received_params", JValue.arr [])]) := by
  refine ⟨rfl, by decide, ?_⟩
  simp [jvalStrings, jvalStringsFields, jvalStringsList]

/-- Claim C4 as amended: for every registered tool whose body raises a
failure other than a TypeError, the response has error code -32603 and
its data is the fixed opaque classification TOOL_EXECUTE_FAILED —
independent of the raised message, which (unless it coincides with one
of those two constants) occurs nowhere in the data — while the raised
detail is written to the server-side error log. -/
theorem c4_execution_failure_redaction (reg : List ToolDef) (req : RpcRequest)
    (t : ToolDef) (ty : ExcType) (m : String)
    (h1 : req.jsonrpc = "2.0")
    (h2 : lookupTool reg req.method = some t)
    (h3 : bindArgs t.name t.params (req.params.getD []) = none)
    (h4 : t.body (req.params.getD []) = Except.error ⟨ty, m⟩)
    (h5 : ty ≠ ExcType.typeError) :
    (processParsed reg req).1.error
        = some { code := -32603, message := "工具执行失败",
                 data := some (JValue.obj [("error_code", JValue.str "TOOL_EXECUTE_FAILED")]) }
    ∧ (m ≠ "error_code" → m ≠ "TOOL_EXECUTE_FAILED" →
        m ∉ jvalStrings (JValue.obj [("error_code", JValue.str "TOOL_EXECUTE_FAILED")]))
    ∧ LogEntry.error ("工具执行失败: id=" ++ idToString req.id ++ ", method=" ++ req.method
        ++ ", error=" ++ m) ∈ (processParsed reg req).2 := by
  refine ⟨?_, ?_, ?_⟩
  · cases ty with
    | typeError => exact absurd rfl h5
    | valueError => simp [processParsed, h1, ToolRegistry.call_tool, h2, h3, h4]
    | other => simp [processParsed, h1, ToolRegistry.call_tool, h2, h3, h4]
  · intro hm1 hm2
    simp [jvalStrings, jvalStringsFields, jvalStringsList, hm1, hm2]
  · cases ty with
    | typeError => exact absurd rfl h5
    | valueError => simp [processParsed, h1, ToolRegistry.call_tool, h2, h3, h4]
    | other => simp [processParsed, h1, ToolRegistry.call_tool, h2, h3, h4]

/-- Witness for C4: a tool raising a generic failure with the text
secret-db-password yields the fixed -32603 response whose data does not
contain that text, while the error log does. -/
theorem c4_witness :
    (processParsed [c4FailTool] c4Req).1.error
        = some { code := -32603, message := "工具执行失败",
                 data := some (JValue.obj [("error_code", JValue.str "TOOL_EXECUTE_FAILED")]) }
    ∧ "secret-db-password"
        ∉ jvalStrings (JValue.obj [("error_code", JValue.str "TOOL_EXECUTE_FAILED")])
    ∧ LogEntry.error ("工具执行失败: id=" ++ idToString c4Req.id ++ ", method=" ++ c4Req.method
        ++ ", error=" ++ "secret-db-password") ∈ (processParsed [c4FailTool] c4Req).2 := by
  have h := c4_execution_failure_redaction [c4FailTool] c4Req c4FailTool
      ExcType.other "secret-db-password" rfl rfl rfl rfl (by decide)
  exact ⟨h.1, h.2.1 (by decide) (by decide), h.2.2⟩

/-- Claim C3, counterexample to the stated default: a parameter with no
type annotation is listed with type str — the Python string type's
name — not with the literal string. -/
theorem c3_counterexample :
    (list_tools [c3Tool]).map (fun e => e.parameters.map (fun d => d.type)) = [["str"]]
    ∧ "str" ≠ "string" :=
  ⟨rfl, by decide⟩

/-- Claim C3 as amended: in every listing, a parameter's type tag is
its annotation's name when an annotation is present and the default
str when none is. -/
theorem c3_param_type_tag (reg : List ToolDef) :
    (list_tools reg).map (fun e => e.parameters.map (fun d => (d.name, d.type)))
      = reg.map (fun t => t.params.map (fun p =>
          (p.name, match p.annotation_name with
                   | some a => a
                   | none => "str"))) := by
  simp [list_tools, List.map_map]

/-- Claim C5, counterexample: the weather tool has exactly one required
parameter (location; date carries a default), yet its listing entry has
two parameter descriptors, so the listing does not return one
descriptor per required parameter. -/
theorem c5_counterexample :
    (weatherTool.params.filter (fun p => p.hasDefault = false)).length = 1
    ∧ (list_tools [weatherTool]).map (fun e => e.parameters.length) = [2]
    ∧ (1 : Nat) ≠ 2 := by
  refine ⟨rfl, ?_, by decide⟩
  simp [list_tools, weatherTool]

/-- Claim C5 as amended: for every tool, the listing returns exactly
one parameter descriptor per declared parameter (required or optional),
whose names match the declared parameter names in declaration order. -/
theorem c5_descriptors_match_declared_params (reg : List ToolDef) :
    (list_tools reg).map (fun e => e.parameters.map (fun d => d.name))
      = reg.map (fun t => t.params.map (fun p => p.name)) := by
  simp [list_tools, List.map_map]

/-- Claim C7, counterexample: the legacy endpoint maps every ValueError
to HTTP 404, so a registered tool whose invocation fails with a
ValueError yields 404, not the 400 the claim requires for failures of
known tools. -/
theorem c7_counterexample :
    lookupTool [c7ValTool] "vtool" = some c7ValTool
    ∧ (call_tool [c7ValTool] "vtool" []).1 = LegacyResult.httpError 404 "v-detail"
    ∧ (404 : Nat) ≠ 400 :=
  ⟨rfl, rfl, by decide⟩

/-- Claim C7 as amended: on the legacy per-tool endpoint, a successful
invocation returns the result body; an unknown tool yields HTTP 404
with the not-found detail; any failure raised as a ValueError —
including the unknown-tool case — yields HTTP 404 with its text; and
every other failure yields HTTP 400 with its text as detail. -/
theorem c7_legacy_endpoint_behavior (reg : List ToolDef) (tool_name : String)
    (parameters : List (String × JValue)) :
    (∀ v, ToolRegistry.call_tool reg tool_name parameters = Except.ok v →
        (call_tool reg tool_name parameters).1
          = LegacyResult.ok (JValue.obj [("result", v)]))
    ∧ (lookupTool reg tool_name = none →
        (call_tool reg tool_name parameters).1
          = LegacyResult.httpError 404 ("工具 " ++ tool_name ++ " 不存在"))
    ∧ (∀ e, ToolRegistry.call_tool reg tool_name parameters = Except.error e →
        e.ty = ExcType.valueError →
        (call_tool reg tool_name parameters).1 = LegacyResult.httpError 404 e.msg)
    ∧ (∀ e, ToolRegistry.call_tool reg tool_name parameters = Except.error e →
        e.ty ≠ ExcType.valueError →
        (call_tool reg tool_name parameters).1 = LegacyResult.httpError 400 e.msg) := by
  refine ⟨?_, ?_, ?_, ?_⟩
  · intro v hv
    simp [call_tool, hv]
  · intro hn
    simp [call_tool, ToolRegistry.call_tool, hn]
  · intro e he hty
    obtain ⟨ty, m⟩ := e
    simp at hty
    simp [call_tool, he, hty]
  · intro e he hty
    obtain ⟨ty, m⟩ := e
    cases ty with
    | valueError => exact absurd rfl hty
    | typeError => simp [call_tool, he]
    | other => simp [call_tool, he]

/-- Witness for C7: a succeeding tool returns its result body, an
unknown name yields 404 with the not-found detail, and a tool raising
a non-ValueError failure yields 400 with its detail. -/
theorem c7_witness :
    (call_tool [c7OkTool] "oktool" []).1
        = LegacyResult.ok (JValue.obj [("result", JValue.str "hi")])
    ∧ (call_tool [c7OkTool] "missing" []).1
        = LegacyResult.httpError 404 ("工具 " ++ "missing" ++ " 不存在")
    ∧ (call_tool [c7OtherTool] "otool" []).1 = LegacyResult.httpError 400 "o-detail" := by
  refine ⟨?_, ?_, ?_⟩
  · exact (c7_legacy_endpoint_behavior [c7OkTool] "oktool" []).1 _ rfl
  · exact (c7_legacy_endpoint_behavior [c7OkTool] "missing" []).2.1 rfl
  · exact (c7_legacy_endpoint_behavior [c7OtherTool] "otool" []).2.2.2 _ rfl (by decide)
